import Mathlib

set_option maxHeartbeats 1000000

/-!
Shallow embedding of the crabo link-preview service core: the snapshot
orchestration engine (snapshot.rs) and the robots compliance gate
(robots.rs), together with the three resolvers (youtube.rs, bilibili.rs,
html_meta.rs) and the shared contract types (snapper.rs).

Definitions are translated from the Rust sources under src/.  External
collaborators that are not part of this repository (the url crate, the
HTTP clients, the texting_robots matcher, the lol_html scanner, serde,
the content cleaner and the proxydon cache client) appear either as a
minimal concrete model (the url crate value) or as explicit function
parameters; the two proxydon cache operations whose behaviour a claim
needs are modelled from the spec and carry a doc comment saying so.
-/

namespace Crabo

/-- Returns true when the character list pre is a prefix of the list s;
models str::starts_with. -/
def strStartsWith (s pre : String) : Bool :=
  pre.toList.isPrefixOf s.toList

/-- Returns true when the string post is a suffix of s; models
str::ends_with. -/
def strEndsWith (s post : String) : Bool :=
  post.toList.reverse.isPrefixOf s.toList.reverse

/-- Drops the first n characters of s; models byte slicing such as
path[1..] on ascii content and scheme stripping. -/
def strDrop (s : String) (n : Nat) : String :=
  String.mk (s.toList.drop n)

/-- Removes leading and trailing slash characters; models
str::trim_matches with a slash argument. -/
def trimSlashes (s : String) : String :=
  String.mk (((s.toList.dropWhile (fun c => c = '/')).reverse.dropWhile
    (fun c => c = '/')).reverse)

/-- Splits a character list at the first character satisfying p; the
matching character stays at the head of the second component. -/
def splitAtFirst (p : Char → Bool) : List Char → List Char × List Char
  | [] => ([], [])
  | c :: rest =>
    if p c then ([], c :: rest)
    else
      let r := splitAtFirst p rest
      (c :: r.1, r.2)

/-- Splits a character list on a separator character; a separator at the
border produces an empty piece, the empty list gives one empty piece. -/
def splitListOnChar (sep : Char) : List Char → List (List Char)
  | [] => [[]]
  | c :: rest =>
    let r := splitListOnChar sep rest
    if c = sep then [] :: r
    else
      match r with
      | [] => [[c]]
      | h :: t => (c :: h) :: t

/-- Minimal model of the url crate Url value as crabo consumes it:
scheme, optional host, path and optional raw query string. -/
structure Url where
  scheme : String
  host : Option String
  path : String
  query : Option String
deriving DecidableEq, Repr

/-- Serialized form of the URL, models Url::as_str and Url::to_string. -/
def Url.toUrlString (u : Url) : String :=
  let hostPart := match u.host with
    | some h => "://" ++ h
    | none => ":"
  let queryPart := match u.query with
    | some q => "?" ++ q
    | none => ""
  u.scheme ++ hostPart ++ u.path ++ queryPart

/-- One query segment as a key and value pair: split at the first equals
sign, a segment without one gets an empty value; models form_urlencoded
pair parsing as used by Url::query_pairs. -/
def querySegToPair (seg : List Char) : String × String :=
  let r := splitAtFirst (fun c => c = '=') seg
  match r.2 with
  | [] => (String.mk r.1, "")
  | _ :: v => (String.mk r.1, String.mk v)

/-- Models Url::query_pairs: the query string split on ampersands, empty
segments skipped, each segment split at its first equals sign. -/
def Url.queryPairs (u : Url) : List (String × String) :=
  match u.query with
  | none => []
  | some q =>
    ((splitListOnChar '&' q.toList).filter (fun seg => !seg.isEmpty)).map
      querySegToPair

/-- Error kinds of Url::parse that the sources distinguish. -/
inductive UrlParseError
  | relativeUrlWithoutBase
  | other
deriving DecidableEq, Repr

/-- Minimal model of Url::parse for absolute http and https URLs; a
string carrying no scheme is a relative URL without base, which is the
error kind the generic resolver treats specially. -/
def Url.parse (s : String) : Except UrlParseError Url :=
  let parseRest := fun (scheme rest : String) =>
    let hr := splitAtFirst (fun c => c = '/' || c = '?') rest.toList
    let host := String.mk hr.1
    if host.isEmpty then (Except.error UrlParseError.other : Except UrlParseError Url)
    else
      match hr.2 with
      | [] => Except.ok ⟨scheme, some host, "/", none⟩
      | c :: tail =>
        if c = '?' then Except.ok ⟨scheme, some host, "/", some (String.mk tail)⟩
        else
          let pq := splitAtFirst (fun c2 => c2 = '?') (c :: tail)
          match pq.2 with
          | [] => Except.ok ⟨scheme, some host, String.mk pq.1, none⟩
          | _ :: qtail =>
            Except.ok ⟨scheme, some host, String.mk pq.1, some (String.mk qtail)⟩
  if strStartsWith s "https://" then parseRest "https" (strDrop s 8)
  else if strStartsWith s "http://" then parseRest "http" (strDrop s 7)
  else Except.error UrlParseError.relativeUrlWithoutBase

/-- crabo_model Snapshot (the crabo_model crate is not under src/; the
field list follows the construction sites in src and the spec data
model). -/
structure Snapshot where
  url : Url
  preview_url : Option Url
  title : Option String
  description : Option String
  source : Option String
  tags : List String
  preview_mime_type : Option String
  application_name : Option String
deriving DecidableEq, Repr

/-- snapper.rs CacheHints. -/
structure CacheHints where
  provider : String
  id : String
deriving DecidableEq, Repr

/-- snapper.rs SnapshotAndHints. -/
structure SnapshotAndHints where
  snapshot : Option Snapshot
  hints : CacheHints
deriving DecidableEq, Repr

/-- fedineko_http_client ClientError, as matched in src: an unexpected
status code, the upstream suppression kind, and every other failure. -/
inductive ClientError
  | unexpectedStatusCode (code : Nat)
  | suppressed
  | otherError
deriving DecidableEq, Repr

namespace Robots

/-- robots.rs RobotsTxtStatus. -/
inductive RobotsTxtStatus
  | acquired
  | requestedNotFound
  | requestedFailed
  | notRequested
deriving DecidableEq, Repr

/-- robots.rs ServerIndexingPermissions. -/
structure ServerIndexingPermissions where
  robots_txt : Option String
  robots_txt_status : RobotsTxtStatus
deriving DecidableEq, Repr

/-- ServerIndexingPermissions::from_string. -/
def ServerIndexingPermissions.from_string (data : String) : ServerIndexingPermissions :=
  ⟨some data, RobotsTxtStatus.acquired⟩

/-- ServerIndexingPermissions::new. -/
def ServerIndexingPermissions.new (robots_txt_status : RobotsTxtStatus) :
    ServerIndexingPermissions :=
  ⟨none, robots_txt_status⟩

/-- texting_robots Robot (external crate): a compiled matcher, abstracted
to its allowed predicate over the full URL string.  Robot::new is passed
around as a compile function of type String to String to Option Robot. -/
structure Robot where
  allowed : String → Bool

/-- Body bytes of a fetched robots.txt as consumed by String::from_utf8:
either valid utf8 carrying the decoded text, or invalid. -/
inductive FetchedBytes
  | utf8 (text : String)
  | invalidUtf8
deriving DecidableEq, Repr

/-- robots.rs RobotsValidator::download_robots_txt with the network
outcome of the robots.txt request as an explicit argument (the address
construction is not modelled).  A none result models the Rust None
returned in the suppressed case. -/
def download_robots_txt (outcome : Except ClientError FetchedBytes) :
    Option ServerIndexingPermissions :=
  match outcome with
  | .ok (.utf8 data) => some (ServerIndexingPermissions.from_string data)
  | .ok .invalidUtf8 => some (ServerIndexingPermissions.new .requestedFailed)
  | .error (.unexpectedStatusCode status) =>
    if status = 404 || status = 403 then
      some (ServerIndexingPermissions.new .requestedNotFound)
    else
      some (ServerIndexingPermissions.new .requestedFailed)
  | .error .suppressed => none
  | .error .otherError => some (ServerIndexingPermissions.new .requestedFailed)

/-- robots.rs RobotsValidator::get_cached_permissions for one site:
cached is the result of the tiered permission cache lookup, outcome the
robots.txt fetch used on a cache miss.  Returns the permissions together
with the list of writes put into the permission cache. -/
def get_cached_permissions (site : String)
    (cached : Option ServerIndexingPermissions)
    (outcome : Except ClientError FetchedBytes) :
    ServerIndexingPermissions × List (String × ServerIndexingPermissions) :=
  match cached with
  | some permissions => (permissions, [])
  | none =>
    match download_robots_txt outcome with
    | none => (ServerIndexingPermissions.new .notRequested, [])
    | some permissions => (permissions, [(site, permissions)])

/-- Construction parameters of a proxydon TypedCache: name, local
capacity, remote tier ttl and local tier ttl in seconds. -/
structure TypedCacheConfig where
  name : String
  capacity : Option Nat
  remoteTtlSeconds : Option Nat
  localTtlSeconds : Option Nat
deriving DecidableEq, Repr

/-- The configuration of the robots_txt_permissions cache built in
RobotsValidator::new: one day in the remote tier, two hours in the local
tier. -/
def robotsTxtPermissionsConfig : TypedCacheConfig :=
  ⟨"robots_txt_permissions", some 512, some (1 * 24 * 60 * 60), some (2 * 60 * 60)⟩

/-- robots.rs RobotsValidator::check_acquired_permissions.  The compiled
matcher cache (LruCache of site to Robot) is an association list; a none
result models the panic of the unwrap on a missing robots_txt text. -/
def check_acquired_permissions (compile : String → String → Option Robot)
    (user_agent : String) (robots_cache : List (String × Robot))
    (site : String) (url : Url)
    (permissions : ServerIndexingPermissions) :
    Option (Bool × List (String × Robot)) :=
  match permissions.robots_txt with
  | none => none
  | some robots_content =>
    match compile user_agent robots_content with
    | some robot => some (robot.allowed url.toUrlString, (site, robot) :: robots_cache)
    | none => some (false, robots_cache)

/-- robots.rs RobotsValidator::can_access_url.  permissions_for stands
for get_cached_permissions resolving the permission state of a site for
this call; the returned pair is the decision and the matcher cache after
the call, none models a panic. -/
def can_access_url (compile : String → String → Option Robot)
    (user_agent : String) (robots_cache : List (String × Robot))
    (permissions_for : String → ServerIndexingPermissions) (url : Url) :
    Option (Bool × List (String × Robot)) :=
  match url.host with
  | none => some (false, robots_cache)
  | some site =>
    match robots_cache.lookup site with
    | some robot => some (robot.allowed url.toUrlString, robots_cache)
    | none =>
      let permissions := permissions_for site
      match permissions.robots_txt_status with
      | .acquired =>
        check_acquired_permissions compile user_agent robots_cache site url permissions
      | .requestedNotFound => some (true, robots_cache)
      | .requestedFailed => some (false, robots_cache)
      | .notRequested => some (false, robots_cache)

end Robots

namespace Youtube

/-- youtube.rs Thumbnail. -/
structure Thumbnail where
  url : Option Url
deriving DecidableEq, Repr

/-- youtube.rs Snippet. -/
structure Snippet where
  title : Option String
  description : Option String
  thumbnails : List (String × Thumbnail)
  tags : Option (List String)
deriving DecidableEq, Repr

/-- youtube.rs Video. -/
structure Video where
  snippet : Snippet
deriving DecidableEq, Repr

/-- youtube.rs VideoListResponse. -/
structure VideoListResponse where
  videos : List Video
deriving DecidableEq, Repr

/-- youtube.rs extract_video_id: shorter youtu.be hosts take the path
past the leading slash, youtube.com hosts take the v query parameter. -/
def extract_video_id (url : Url) : Option String :=
  match url.host with
  | none => none
  | some host =>
    if strEndsWith host "youtu.be" then
      if url.path.isEmpty then none else some (strDrop url.path 1)
    else if strEndsWith host "youtube.com" then
      (url.queryPairs.find? (fun p => p.1 = "v")).map (fun p => p.2)
    else none

/-- YoutubeSnapper cache_hints. -/
def cache_hints (video_url : Url) : Option CacheHints :=
  (extract_video_id video_url).map (fun id => ⟨"youtube", id⟩)

/-- youtube.rs YoutubeSnapper::thumbnail_to_snapshot; mimeFromPath models
mime_guess::from_path composed with first and to_string. -/
def thumbnail_to_snapshot (mimeFromPath : String → Option String) (url : Url)
    (video : Video) (thumbnail : Option Thumbnail) : Option Snapshot :=
  match thumbnail with
  | some t =>
    some { url := url
           preview_url := t.url
           title := video.snippet.title
           description := video.snippet.description
           source := some "YouTube"
           tags := (video.snippet.tags.getD []).map (fun tag => "#" ++ tag)
           preview_mime_type := t.url.bind (fun x => mimeFromPath x.path)
           application_name := none }
  | none => none

/-- youtube.rs YoutubeSnapper::snap with the outcome of the API call as
an explicit argument; the thumbnail is the first available one among the
fixed key priority list.  The function is total: every outcome produces
a SnapshotAndHints value carrying the input hints. -/
def snap (mimeFromPath : String → Option String) (url : Url)
    (cache_hints : CacheHints)
    (apiResult : Except ClientError VideoListResponse) : SnapshotAndHints :=
  match apiResult with
  | .ok response =>
    let snapshot := response.videos.head?.bind (fun video =>
      let thumbnail := (["high", "standard", "maxres", "medium", "default"].filterMap
        (fun key => video.snippet.thumbnails.lookup key)).head?
      thumbnail_to_snapshot mimeFromPath url video thumbnail)
    ⟨snapshot, cache_hints⟩
  | .error _ => ⟨none, cache_hints⟩

end Youtube

namespace BiliBili

/-- bilibili.rs VideoData. -/
structure VideoData where
  pic : Option Url
  title : Option String
  desc : Option String
deriving DecidableEq, Repr

/-- bilibili.rs BiliBiliResponse. -/
structure BiliBiliResponse where
  data : VideoData
deriving DecidableEq, Repr

/-- bilibili.rs extract_video_id.  In the b23.tv branch the Rust code
calls ResourcePath::path on the host String; that implementation returns
the whole string, so the produced id is the host itself. -/
def extract_video_id (url : Url) : Option String :=
  match url.host with
  | none => none
  | some host =>
    if strEndsWith host "b23.tv" then some host
    else if !strEndsWith host "bilibili.com" then none
    else
      if strStartsWith url.path "/video/" then
        some (trimSlashes (strDrop url.path 7))
      else none

/-- BiliBiliSnapper cache_hints. -/
def cache_hints (video_url : Url) : Option CacheHints :=
  (extract_video_id video_url).map (fun id => ⟨"bilibili", id⟩)

/-- bilibili.rs videodata_to_snapshot. -/
def videodata_to_snapshot (mimeFromPath : String → Option String) (url : Url)
    (video : VideoData) : Option Snapshot :=
  some { url := url
         preview_url := video.pic
         title := video.title
         description := video.desc
         source := some "BiliBili"
         tags := []
         preview_mime_type := video.pic.bind (fun x => mimeFromPath x.path)
         application_name := none }

/-- The value of one HTTP response header: visible ascii text readable by
HeaderValue::to_str, or bytes on which to_str fails. -/
inductive HeaderValue
  | ascii (value : String)
  | opaqueBytes
deriving DecidableEq, Repr

/-- Response headers of the redirect HEAD request. -/
abbrev Headers := List (String × HeaderValue)

/-- bilibili.rs BiliBiliSnapper::resolve_short_url with the outcome of
the HEAD request as an explicit argument.  The outer Option models
control flow: none is the panic of the two unwraps on the location
header (to_str on non ascii bytes, Url::parse on an unparseable value
such as a relative redirect target); some r is a normal return of r. -/
def resolve_short_url (headResult : Except ClientError Headers) :
    Option (Option String) :=
  match headResult with
  | .error _ => some none
  | .ok headers =>
    match headers.lookup "location" with
    | none => some none
    | some HeaderValue.opaqueBytes => none
    | some (HeaderValue.ascii value) =>
      match Url.parse value with
      | .error _ => none
      | .ok u => some (extract_video_id u)

/-- bilibili.rs BiliBiliSnapper::snap with the outcomes of the HEAD
request (for short link ids) and of the API call as explicit arguments.
A none result models a panic escaping from resolve_short_url. -/
def snap (mimeFromPath : String → Option String) (url : Url)
    (cache_hints : CacheHints) (headResult : Except ClientError Headers)
    (apiResult : Except ClientError BiliBiliResponse) :
    Option SnapshotAndHints :=
  let videoIdStep : Option String :=
    if !strStartsWith cache_hints.id "BV" then
      match resolve_short_url headResult with
      | none => none
      | some resolved => some (resolved.getD cache_hints.id)
    else some cache_hints.id
  match videoIdStep with
  | none => none
  | some _video_id =>
    match apiResult with
    | .ok response =>
      some ⟨videodata_to_snapshot mimeFromPath url response.data, cache_hints⟩
    | .error _ => some ⟨none, cache_hints⟩

end BiliBili

namespace HtmlMeta

/-- The map of properties collected by the markup scan, keyed by the
property or name attribute (HashMap with unique keys, modelled as an
association list looked up by first match). -/
abbrev PropsMap := List (String × String)

/-- html_meta.rs FEDINEKO_CAN_INDEX_KEY. -/
def fedineko_can_index_key : String := "fedineko-can-index"

/-- html_meta.rs param_matches_utm. -/
def param_matches_utm (parameter : String) : Bool :=
  strStartsWith parameter "utm" ||
    strStartsWith parameter "amp;amp;utm" ||
    strStartsWith parameter "amp;utm" ||
    parameter == "smid" ||
    parameter == "via"

/-- Serialization of query pairs as written back by
query_pairs_mut clear and extend_pairs. -/
def serializeQueryPairs : List (String × String) → String
  | [] => ""
  | [p] => p.1 ++ "=" ++ p.2
  | p :: rest => p.1 ++ "=" ++ p.2 ++ "&" ++ serializeQueryPairs rest

/-- html_meta.rs remove_known_campaign_tracking_parameters: keeps the
pairs whose key is no campaign tracking parameter; when that drops
something, an empty remainder removes the query entirely, otherwise the
query is rebuilt from the kept pairs. -/
def remove_known_campaign_tracking_parameters (url : Url) : Url :=
  let originalParamsCount := url.queryPairs.length
  let params := url.queryPairs.filter (fun p => !param_matches_utm p.1)
  if originalParamsCount ≠ params.length then
    if params.isEmpty then { url with query := none }
    else { url with query := some (serializeQueryPairs params) }
  else url

/-- Option refinement used twice in properties_to_snapshot: an empty
string becomes none. -/
def noneIfEmpty (s : Option String) : Option String :=
  s.bind (fun t => if t.isEmpty then none else some t)

/-- html_meta.rs select_description: the longest string among the fixed
ordered description keys (stable, so the earliest key wins ties). -/
def select_description (properties : PropsMap) : Option String :=
  let all := [properties.lookup "og:description",
    properties.lookup "twitter:description",
    properties.lookup "description",
    properties.lookup "Description"].filterMap id
  all.foldl (fun acc s =>
    match acc with
    | none => some s
    | some b => if s.length > b.length then some s else acc) none

/-- html_meta.rs guess_social: profile marker keys of social platforms,
then the application-name allow list matched case insensitively. -/
def guess_social (properties : PropsMap) : Option String :=
  let profile_hints := [properties.lookup "profile:username",
    properties.lookup "og:profile:username",
    properties.lookup "misskey:user-username",
    properties.lookup "misskey:user-id",
    properties.lookup "misskey:note-id"].any (fun value => value.isSome)
  if profile_hints then some "guessed.social"
  else
    (properties.lookup "application-name").bind (fun app =>
      if app.toLower = "misskey" || app.toLower = "sharkey" ||
          app.toLower = "foundkey" || app.toLower = "iceshrimp" ||
          app.toLower = "catodon" || app.toLower = "firefish" then
        some "guessed.social"
      else none)

/-- html_meta.rs parse_image_url.  join models Url::join resolving a
relative reference against the page URL (external url crate); every
parse error other than a relative URL without base yields none. -/
def parse_image_url (join : Url → String → Option Url) (site_url : Url)
    (url_str : String) : Option Url :=
  match Url.parse url_str with
  | .ok u => some u
  | .error .relativeUrlWithoutBase => join site_url url_str
  | .error _ => none

/-- The guard at the top of properties_to_snapshot: the fedineko can
index key, when present, must hold the string true. -/
def canIndexAllows (properties : PropsMap) : Bool :=
  match properties.lookup fedineko_can_index_key with
  | some can_index => can_index == "true"
  | none => true

/-- html_meta.rs properties_to_snapshot.  guessMime models
guess_mime_from_url (a HEAD request on an unclear mime type), join
models Url::join inside parse_image_url. -/
def properties_to_snapshot (join : Url → String → Option Url)
    (guessMime : Option Url → Option String) (url : Url)
    (properties : PropsMap) : Option Snapshot :=
  if canIndexAllows properties then
    let og_title := noneIfEmpty ((properties.lookup "og:title").orElse
      (fun _ => (properties.lookup "og:site_name").orElse
        (fun _ => properties.lookup "title")))
    let og_description := noneIfEmpty ((select_description properties).orElse
      (fun _ => og_title))
    let og_image := (properties.lookup "og:image").orElse
      (fun _ => properties.lookup "twitter:image")
    let og_site_name := (properties.lookup "og:site_name").orElse
      (fun _ => (properties.lookup "twitter:site").orElse (fun _ => og_title))
    if og_image.isNone && og_description.isNone then none
    else
      let application_name := guess_social properties
      let preview_url := og_image.bind (fun image_url =>
        parse_image_url join url image_url)
      let media_type := guessMime preview_url
      some { url := url
             preview_url := preview_url
             title := og_title
             description := og_description
             source := og_site_name
             tags := []
             preview_mime_type := media_type
             application_name := application_name }
  else none

/-- HtmlMetaSnapper cache_hints: always the default provider with the
canonical URL string as id. -/
def cache_hints (url : Url) : Option CacheHints :=
  some ⟨"default", url.toUrlString⟩

/-- Network side effects of the generic resolver, in the order they are
issued: the robots compliance gate decision for a URL, and the fetch of
the page body. -/
inductive NetEvent
  | robotsCheck (url : Url)
  | pageFetch (target : String)
deriving DecidableEq, Repr

/-- html_meta.rs HtmlMetaSnapper::snap.  gate stands for the robots
validator can_access_url decision, fetchBody for the suppressed client
get_bytes outcome on the hint id, parseMeta for parse_meta_lol_html.
The second component records the network effects in order: the gate
decision always comes first, and the page fetch happens only on an
allowing gate. -/
def snap (gate : Url → Bool) (fetchBody : Except ClientError String)
    (parseMeta : String → PropsMap) (join : Url → String → Option Url)
    (guessMime : Option Url → Option String) (original_url : Url)
    (cache_hints : CacheHints) : SnapshotAndHints × List NetEvent :=
  let url := remove_known_campaign_tracking_parameters original_url
  if gate url then
    match fetchBody with
    | .ok body =>
      (⟨properties_to_snapshot join guessMime original_url (parseMeta body),
        cache_hints⟩,
       [NetEvent.robotsCheck url, NetEvent.pageFetch cache_hints.id])
    | .error _ =>
      (⟨none, cache_hints⟩,
       [NetEvent.robotsCheck url, NetEvent.pageFetch cache_hints.id])
  else
    (⟨none, cache_hints⟩, [NetEvent.robotsCheck url])

end HtmlMeta

namespace SnapshotMaker

/-- proxydon_client CacheItem: a persisted record, with an explicit
negative marker (content none) distinct from a missing key; expiry
fields are seconds. -/
structure CacheItem where
  id : String
  content : Option String
  expires_at : Nat
  local_cache_expires_at : Option Nat
deriving DecidableEq, Repr

/-- Modelled from the spec: the snapshot cache collaborator (proxydon
ProxydonCache, not under src/) bulk get by key set: returns the recorded
items among the requested ids whose expiry has not passed. -/
def cacheGet (store : List CacheItem) (ids : List String) (now : Nat) :
    List CacheItem :=
  store.filter (fun item => ids.contains item.id && decide (now < item.expires_at))

/-- Modelled from the spec: the snapshot cache collaborator bulk put:
records every written item, replacing any previous record with the same
id. -/
def cachePut (store : List CacheItem) (items : List CacheItem) :
    List CacheItem :=
  items ++ store.filter (fun old => !(items.map (fun it => it.id)).contains old.id)

/-- snapshot.rs SnapshotMaker::cache_hints: the special snappers are
asked in order, the general purpose HTML snapper is the fallback with
the URL string as id. -/
def cache_hints (url : Url) : CacheHints :=
  match Youtube.cache_hints url with
  | some hints => hints
  | none =>
    match BiliBili.cache_hints url with
    | some hints => hints
    | none => ⟨"default", url.toUrlString⟩

/-- snapshot.rs SnapshotMaker::unescape_newline_and_clean; cleanContent
models ContentCleaner::clean_content (external collaborator). -/
def unescape_newline_and_clean (cleanContent : String → String)
    (text : String) : String :=
  cleanContent (text.replace "\n" "<br />")

/-- snapshot.rs SnapshotMaker::clean_snapshot: cleans title, description
(with newline unescaping), source and every tag, dropping tags cleaned
to the empty string; the remaining fields are carried over. -/
def clean_snapshot (cleanContent : String → String)
    (snapshot : Option Snapshot) : Option Snapshot :=
  snapshot.map (fun s =>
    { s with
      title := s.title.map cleanContent
      description := s.description.map (unescape_newline_and_clean cleanContent)
      source := s.source.map cleanContent
      tags := (s.tags.map cleanContent).filter (fun tag => !tag.isEmpty) })

/-- One week in seconds: the remote ttl of snapshot cache writes. -/
def oneWeekSeconds : Nat := 7 * 24 * 60 * 60

/-- snapshot.rs SnapshotMaker::update_cache_many: the records written
back to the cache, one per freshly produced result; an absent snapshot
becomes an explicit negative record; expiry is one week from now with
no local tier override.  encode models serde_json::to_string. -/
def update_cache_many (now : Nat) (encode : Snapshot → String)
    (snapshot_and_hints : List SnapshotAndHints) : List CacheItem :=
  snapshot_and_hints.map (fun sh =>
    match sh.snapshot with
    | none => ⟨sh.hints.id, none, now + oneWeekSeconds, none⟩
    | some snapshot => ⟨sh.hints.id, some (encode snapshot), now + oneWeekSeconds, none⟩)

/-- snapshot.rs SnapshotMaker::cache_item_to_snapshot: a negative record
yields none, otherwise the content is deserialized (decode models
serde_json::from_str with ok). -/
def cache_item_to_snapshot (decode : String → Option Snapshot)
    (cache_item : CacheItem) : Option Snapshot :=
  match cache_item.content with
  | none => none
  | some content => decode content

/-- snapshot.rs SnapshotMaker::ignored_url. -/
def ignored_url (url : Url) : Bool :=
  match url.host with
  | none => true
  | some host =>
    strEndsWith host "twitter.com" || strEndsWith host ".x.com" || host == "x.com"

/-- HashMap insert used while collecting the URL to hints mapping:
replaces an existing binding of the same URL. -/
def insertHint (m : List (Url × CacheHints)) (kv : Url × CacheHints) :
    List (Url × CacheHints) :=
  if m.any (fun e => e.1 = kv.1) then
    m.map (fun e => if e.1 = kv.1 then kv else e)
  else m ++ [kv]

/-- The URL to hints mapping of snap_many: ignored and hostless URLs are
dropped, each remaining URL maps to its dispatched hints, duplicate URLs
collapse. -/
def hintsMap (urls : List Url) : List (Url × CacheHints) :=
  (urls.filter (fun url => !ignored_url url)).foldl
    (fun m url => insertHint m (url, cache_hints url)) []

/-- The hint ids looked up in the snapshot cache. -/
def snapIds (urls : List Url) : List String :=
  (hintsMap urls).map (fun e => e.2.id)

/-- The cache lookup of snap_many: skipped entirely under bypass. -/
def snapHaveInCache (store : List CacheItem) (now : Nat) (urls : List Url)
    (bypass_cache : Bool) : List CacheItem :=
  if bypass_cache then [] else cacheGet store (snapIds urls) now

/-- The hints whose resolver snap_many invokes: everything the cache
lookup did not cover. -/
def snapToResolve (store : List CacheItem) (now : Nat) (urls : List Url)
    (bypass_cache : Bool) : List (Url × CacheHints) :=
  let haveIds := (snapHaveInCache store now urls bypass_cache).map
    (fun item => item.id)
  (hintsMap urls).filter (fun e => !haveIds.contains e.2.id)

/-- Everything one snap_many call produces: the returned snapshots, the
cache store after the bulk write back, and the hint set whose resolvers
were invoked. -/
structure SnapManyOutcome where
  snapshots : List Snapshot
  store : List CacheItem
  invoked : List (Url × CacheHints)
deriving Repr

/-- snapshot.rs SnapshotMaker::snap_many.  resolve stands for
snap_with_cache_hints (the per provider resolution with its network
outcomes), cleanContent for the content cleaner, encode and decode for
the serde json round trip.  Cache misses are resolved, cleaned, written
back (negative entries included), and the returned collection is the
cache-hit positives followed by the freshly resolved positives. -/
def snap_many (resolve : Url → CacheHints → SnapshotAndHints)
    (cleanContent : String → String) (encode : Snapshot → String)
    (decode : String → Option Snapshot) (store : List CacheItem)
    (now : Nat) (urls : List Url) (bypass_cache : Bool) : SnapManyOutcome :=
  let have_in_cache := snapHaveInCache store now urls bypass_cache
  let to_resolve := snapToResolve store now urls bypass_cache
  let just_loaded := to_resolve.map (fun e =>
    let sh := resolve e.1 e.2
    { sh with snapshot := clean_snapshot cleanContent sh.snapshot })
  let items := update_cache_many now encode just_loaded
  { snapshots := have_in_cache.filterMap (cache_item_to_snapshot decode)
      ++ just_loaded.filterMap (fun sh => sh.snapshot)
    store := cachePut store items
    invoked := to_resolve }

end SnapshotMaker

/-! Concrete fixtures used by witnesses and counterexamples. -/

/-- A plain page URL outside every special host list. -/
def plainUrl : Url := ⟨"https", some "example.com", "/", none⟩

/-- A page URL carrying one content parameter and two campaign tracking
parameters, the second one doubly escaped. -/
def trackedUrl : Url :=
  ⟨"https", some "example.com", "/page", some "x=1&utm_source=a&amp;utm_medium=b"⟩

/-- A page URL whose parameters are all campaign tracking parameters. -/
def allTrackedUrl : Url :=
  ⟨"https", some "example.com", "/page", some "utm_source=a&via=b"⟩

/-- The YouTube home page: the host matches the platform domain, the URL
carries no v parameter. -/
def youtubeHomeUrl : Url := ⟨"https", some "www.youtube.com", "/", none⟩

/-- A canonical YouTube watch URL with video id x8. -/
def youtubeWatchUrl : Url := ⟨"https", some "www.youtube.com", "/watch", some "v=x8"⟩

/-- Hints of a BiliBili short link as the dispatcher produces them. -/
def shortLinkHints : CacheHints := ⟨"bilibili", "b23.tv"⟩

/-- HEAD response headers carrying a relative redirect target in the
location header. -/
def relativeLocationHeaders : BiliBili.Headers :=
  [("location", BiliBili.HeaderValue.ascii "/video/BV1xx")]

/-- A syntactically complete BiliBili API response. -/
def emptyBiliResponse : BiliBili.BiliBiliResponse := ⟨⟨none, none, none⟩⟩

/-- A property map carrying only the can index marker and a page title:
no image property and no description property. -/
def titleOnlyProps : HtmlMeta.PropsMap :=
  [("fedineko-can-index", "true"), ("title", "Hello")]

/-- A matcher compile function accepting every robots.txt text with an
allow everything matcher. -/
def allowAllCompile : String → String → Option Robots.Robot :=
  fun _ _ => some ⟨fun _ => true⟩

/-- A permission resolution returning an acquired state with a fixed
robots.txt text for every site. -/
def acquiredPermissionsFor : String → Robots.ServerIndexingPermissions :=
  fun _ => ⟨some "ok", Robots.RobotsTxtStatus.acquired⟩

/-- A resolver outcome in which every URL resolves to absent with its
hints preserved. -/
def absentResolve : Url → CacheHints → SnapshotAndHints :=
  fun _ hints => ⟨none, hints⟩

/-- A content cleaner leaving text unchanged. -/
def idClean : String → String := fun s => s

/-- A trivial snapshot serializer. -/
def encode0 : Snapshot → String := fun _ => ""

/-- A trivial snapshot deserializer. -/
def decode0 : String → Option Snapshot := fun _ => none

/-- A robots gate denying every URL. -/
def denyGate : Url → Bool := fun _ => false

/-- A markup scan producing no properties. -/
def emptyParse : String → HtmlMeta.PropsMap := fun _ => []

/-- A URL join resolving nothing. -/
def noJoin : Url → String → Option Url := fun _ _ => none

/-- A mime guess producing nothing. -/
def noMime : Option Url → Option String := fun _ => none

/-- A mime guess by path producing nothing. -/
def noMimeFromPath : String → Option String := fun _ => none

/-- A failed page fetch outcome. -/
def failedFetch : Except ClientError String := Except.error ClientError.otherError

/-- Hints of a plain page as the dispatcher produces them. -/
def plainHints : CacheHints := ⟨"default", "https://example.com/"⟩

/-! Claim theorems. -/

/-- C10: for every snapshot, the sanitization step modifies only the free
text fields title, description, source and tags (dropping tags that
sanitize to empty); the url, preview_url, preview_mime_type and
application_name fields are returned unchanged. -/
theorem claim10_clean_snapshot_frame (cleanContent : String → String) (s : Snapshot) :
  ∃ s2, SnapshotMaker.clean_snapshot cleanContent (some s) = some s2 ∧
    s2.url = s.url ∧ s2.preview_url = s.preview_url ∧
    s2.preview_mime_type = s.preview_mime_type ∧
    s2.application_name = s.application_name ∧
    s2.title = s.title.map cleanContent ∧
    s2.description = s.description.map
      (SnapshotMaker.unescape_newline_and_clean cleanContent) ∧
    s2.source = s.source.map cleanContent ∧
    s2.tags = (s.tags.map cleanContent).filter (fun tag => !tag.isEmpty) :=
  ⟨_, rfl, rfl, rfl, rfl, rfl, rfl, rfl, rfl, rfl⟩

/-- C9: for the query string x=1&utm_source=a&amp;utm_medium=b the
campaign tracking parameter stripping keeps x=1 and drops both utm
variants, including the doubly escaped one; and for every URL whose
(non empty) query parameters are all tracking parameters the query
string is removed entirely rather than left as an empty question mark. -/
theorem claim9_tracking_params :
  (HtmlMeta.remove_known_campaign_tracking_parameters trackedUrl).query = some "x=1"
  ∧ ∀ url : Url, url.queryPairs ≠ [] →
      (∀ p ∈ url.queryPairs, HtmlMeta.param_matches_utm p.1 = true) →
      (HtmlMeta.remove_known_campaign_tracking_parameters url).query = none := by
  constructor
  · decide
  · intro url hne hall
    have hfilter : url.queryPairs.filter
        (fun p => !HtmlMeta.param_matches_utm p.1) = [] := by
      rw [List.filter_eq_nil_iff]
      intro p hp
      simp [hall p hp]
    have hlen : url.queryPairs.length ≠ 0 := by
      intro h0
      exact hne (List.length_eq_zero.mp h0)
    simp [HtmlMeta.remove_known_campaign_tracking_parameters, hfilter, hlen]

/-- C9 witness: a URL whose parameters are all tracking parameters loses
its query string entirely. -/
theorem claim9_witness :
  (HtmlMeta.remove_known_campaign_tracking_parameters allTrackedUrl).query = none :=
  claim9_tracking_params.2 allTrackedUrl (by decide) (by decide)

/-- C4: the claim says resolve never raises and every transport or parse
failure degrades to an absent snapshot.  The BiliBili resolver violates
this: when the short link HEAD response carries a location header whose
value is not an absolute parseable URL (here a relative redirect
target), the two unwraps in resolve_short_url panic instead of
degrading; the none result of the model is that panic. -/
theorem claim4_bilibili_short_link_failure :
  BiliBili.snap noMimeFromPath plainUrl shortLinkHints
    (Except.ok relativeLocationHeaders) (Except.ok emptyBiliResponse) = none := rfl

/-- C8 counterexample: a property map with no image property and no
description property, but a non empty title, still produces a snapshot
(description falls back to the title), so the claim as stated is false. -/
theorem claim8_counterexample :
  titleOnlyProps.lookup "og:image" = none ∧
  titleOnlyProps.lookup "twitter:image" = none ∧
  titleOnlyProps.lookup "og:description" = none ∧
  titleOnlyProps.lookup "twitter:description" = none ∧
  titleOnlyProps.lookup "description" = none ∧
  titleOnlyProps.lookup "Description" = none ∧
  (HtmlMeta.properties_to_snapshot noJoin noMime plainUrl titleOnlyProps).isSome
    = true := by decide

/-- C3 counterexample: the YouTube home page URL has a host matching the
platform domain, yet the dispatch returns the generic provider tag, so
the claim as stated is false. -/
theorem claim3_counterexample :
  (∃ h, youtubeHomeUrl.host = some h ∧ strEndsWith h "youtube.com" = true) ∧
  (SnapshotMaker.cache_hints youtubeHomeUrl).provider = "default" ∧
  (SnapshotMaker.cache_hints youtubeHomeUrl).provider ≠ "youtube" :=
  ⟨⟨"www.youtube.com", rfl, by decide⟩, by decide, by decide⟩

/-- C3 amended: the dispatch returns a platform tag with the extracted
id exactly when that id extraction of that platform succeeds on the URL
(YouTube first, then BiliBili), and platform extraction succeeds only
for URLs whose host matches that domains of that platform; every other URL,
video platform hosts without an id shape included, gets the generic tag
with the canonical URL string as id. -/
theorem claim3_amended_dispatch (url : Url) :
  (∀ id, Youtube.extract_video_id url = some id →
    SnapshotMaker.cache_hints url = ⟨"youtube", id⟩) ∧
  (Youtube.extract_video_id url = none →
    ∀ id, BiliBili.extract_video_id url = some id →
      SnapshotMaker.cache_hints url = ⟨"bilibili", id⟩) ∧
  (Youtube.extract_video_id url = none →
    BiliBili.extract_video_id url = none →
      SnapshotMaker.cache_hints url = ⟨"default", url.toUrlString⟩) ∧
  (∀ id, Youtube.extract_video_id url = some id →
    ∃ h, url.host = some h ∧
      (strEndsWith h "youtu.be" = true ∨ strEndsWith h "youtube.com" = true)) ∧
  (∀ id, BiliBili.extract_video_id url = some id →
    ∃ h, url.host = some h ∧
      (strEndsWith h "b23.tv" = true ∨ strEndsWith h "bilibili.com" = true)) := by
  refine ⟨?_, ?_, ?_, ?_, ?_⟩
  · intro id h
    simp [SnapshotMaker.cache_hints, Youtube.cache_hints, h]
  · intro hy id h
    simp [SnapshotMaker.cache_hints, Youtube.cache_hints, BiliBili.cache_hints, hy, h]
  · intro hy hb
    simp [SnapshotMaker.cache_hints, Youtube.cache_hints, BiliBili.cache_hints, hy, hb]
  · intro id h
    rcases hu : url.host with _ | host
    · simp [Youtube.extract_video_id, hu] at h
    · refine ⟨host, rfl, ?_⟩
      by_cases h1 : strEndsWith host "youtu.be"
      · exact Or.inl h1
      · by_cases h2 : strEndsWith host "youtube.com"
        · exact Or.inr h2
        · simp [Youtube.extract_video_id, hu, h1, h2] at h
  · intro id h
    rcases hu : url.host with _ | host
    · simp [BiliBili.extract_video_id, hu] at h
    · refine ⟨host, rfl, ?_⟩
      by_cases h1 : strEndsWith host "b23.tv"
      · exact Or.inl h1
      · by_cases h2 : strEndsWith host "bilibili.com"
        · exact Or.inr h2
        · simp [BiliBili.extract_video_id, hu, h1, h2] at h

/-- C3 witness: a canonical watch URL extracts video id x8 and the
dispatch returns the YouTube tag carrying it. -/
theorem claim3_witness :
  Youtube.extract_video_id youtubeWatchUrl = some "x8" ∧
  SnapshotMaker.cache_hints youtubeWatchUrl = ⟨"youtube", "x8"⟩ :=
  ⟨by decide, (claim3_amended_dispatch youtubeWatchUrl).1 "x8" (by decide)⟩

/-- C8 amended: if neither an image property nor a description property
nor a non empty title bearing property (og:title, og:site_name, title,
which the description logic falls back to) is present among the
extracted properties, the result is an absent snapshot. -/
theorem claim8_amended_absent (join : Url → String → Option Url)
    (guessMime : Option Url → Option String) (url : Url)
    (props : HtmlMeta.PropsMap)
    (h1 : props.lookup "og:image" = none)
    (h2 : props.lookup "twitter:image" = none)
    (h3 : props.lookup "og:description" = none)
    (h4 : props.lookup "twitter:description" = none)
    (h5 : props.lookup "description" = none)
    (h6 : props.lookup "Description" = none)
    (h7 : ∀ v, (props.lookup "og:title").orElse
      (fun _ => (props.lookup "og:site_name").orElse
        (fun _ => props.lookup "title")) = some v → v = "") :
  HtmlMeta.properties_to_snapshot join guessMime url props = none := by
  have hsel : HtmlMeta.select_description props = none := by
    simp [HtmlMeta.select_description, h3, h4, h5, h6]
  have htitle : HtmlMeta.noneIfEmpty ((props.lookup "og:title").orElse
      (fun _ => (props.lookup "og:site_name").orElse
        (fun _ => props.lookup "title"))) = none := by
    rcases hch : (props.lookup "og:title").orElse
        (fun _ => (props.lookup "og:site_name").orElse
          (fun _ => props.lookup "title")) with _ | v
    · rfl
    · have hv := h7 v hch
      subst hv
      rfl
  by_cases hc : HtmlMeta.canIndexAllows props
  · simp [HtmlMeta.properties_to_snapshot, hc, hsel, htitle, h1, h2]
    rfl
  · simp [HtmlMeta.properties_to_snapshot, hc]

/-- C8 witness: an empty property map yields an absent snapshot. -/
theorem claim8_witness :
  HtmlMeta.properties_to_snapshot noJoin noMime plainUrl [] = none :=
  claim8_amended_absent noJoin noMime plainUrl [] rfl rfl rfl rfl rfl rfl
    (fun _ h => Option.noConfusion h)

/-- C6: in the generic resolver the robots gate decision strictly
precedes the page fetch it protects (the gate decision is the first
network event and every page fetch event has a later position), and a
denying gate means no page fetch happens and the result is an absent
snapshot. -/
theorem claim6_gate_precedes_fetch (gate : Url → Bool)
    (fetchBody : Except ClientError String)
    (parseMeta : String → HtmlMeta.PropsMap)
    (join : Url → String → Option Url)
    (guessMime : Option Url → Option String) (url : Url) (hints : CacheHints) :
  (gate (HtmlMeta.remove_known_campaign_tracking_parameters url) = false →
    (HtmlMeta.snap gate fetchBody parseMeta join guessMime url hints).1.snapshot
      = none ∧
    ∀ t, HtmlMeta.NetEvent.pageFetch t ∉
      (HtmlMeta.snap gate fetchBody parseMeta join guessMime url hints).2) ∧
  (HtmlMeta.snap gate fetchBody parseMeta join guessMime url hints).2.head? =
    some (HtmlMeta.NetEvent.robotsCheck
      (HtmlMeta.remove_known_campaign_tracking_parameters url)) ∧
  (∀ i t, (HtmlMeta.snap gate fetchBody parseMeta join guessMime url hints).2.get? i
      = some (HtmlMeta.NetEvent.pageFetch t) → 1 ≤ i) := by
  by_cases hg : gate (HtmlMeta.remove_known_campaign_tracking_parameters url) = true
  · refine ⟨fun hfalse => absurd hg (by simp [hfalse]), ?_, ?_⟩
    · cases fetchBody with
      | ok body => simp [HtmlMeta.snap, hg]
      | error e => simp [HtmlMeta.snap, hg]
    · intro i t h
      match i with
      | 0 =>
        cases fetchBody with
        | ok body => simp [HtmlMeta.snap, hg] at h
        | error e => simp [HtmlMeta.snap, hg] at h
      | n + 1 => exact Nat.succ_le_succ (Nat.zero_le n)
  · have hg2 : gate (HtmlMeta.remove_known_campaign_tracking_parameters url)
        = false := by
      simpa using hg
    refine ⟨fun _ => ⟨?_, ?_⟩, ?_, ?_⟩
    · simp [HtmlMeta.snap, hg2]
    · intro t
      simp [HtmlMeta.snap, hg2]
    · simp [HtmlMeta.snap, hg2]
    · intro i t h
      match i with
      | 0 => simp [HtmlMeta.snap, hg2] at h
      | n + 1 =>
        simp [HtmlMeta.snap, hg2] at h

/-- C6 witness: with a denying gate the generic resolver produces an
absent snapshot and no page fetch event. -/
theorem claim6_witness :
  (HtmlMeta.snap denyGate failedFetch emptyParse noJoin noMime plainUrl
    plainHints).1.snapshot = none ∧
  ∀ t, HtmlMeta.NetEvent.pageFetch t ∉
    (HtmlMeta.snap denyGate failedFetch emptyParse noJoin noMime plainUrl
      plainHints).2 :=
  (claim6_gate_precedes_fetch denyGate failedFetch emptyParse noJoin noMime
    plainUrl plainHints).1 rfl

/-- C5: on a permission cache miss, the robots.txt fetch outcome is
classified as: success with utf8 text to Acquired, status 404 or 403 to
RequestedNotFound, upstream suppression to a NotRequested state for this
call with nothing written back, any other failure (other statuses, other
transport errors, undecodable text) to RequestedFailed; exactly the
three non suppressed states are persisted; a suppressed outcome denies
the call; the cache ttls are about one day (remote) and two hours
(local). -/
theorem claim5_robots_fetch_classification (site : String)
    (outcome : Except ClientError Robots.FetchedBytes) :
  (∀ text, outcome = Except.ok (Robots.FetchedBytes.utf8 text) →
    Robots.get_cached_permissions site none outcome =
      (⟨some text, Robots.RobotsTxtStatus.acquired⟩,
       [(site, ⟨some text, Robots.RobotsTxtStatus.acquired⟩)])) ∧
  (outcome = Except.ok Robots.FetchedBytes.invalidUtf8 →
    Robots.get_cached_permissions site none outcome =
      (Robots.ServerIndexingPermissions.new .requestedFailed,
       [(site, Robots.ServerIndexingPermissions.new .requestedFailed)])) ∧
  (∀ status, outcome = Except.error (ClientError.unexpectedStatusCode status) →
    (status = 404 ∨ status = 403) →
    Robots.get_cached_permissions site none outcome =
      (Robots.ServerIndexingPermissions.new .requestedNotFound,
       [(site, Robots.ServerIndexingPermissions.new .requestedNotFound)])) ∧
  (∀ status, outcome = Except.error (ClientError.unexpectedStatusCode status) →
    status ≠ 404 → status ≠ 403 →
    Robots.get_cached_permissions site none outcome =
      (Robots.ServerIndexingPermissions.new .requestedFailed,
       [(site, Robots.ServerIndexingPermissions.new .requestedFailed)])) ∧
  (outcome = Except.error ClientError.suppressed →
    Robots.get_cached_permissions site none outcome =
      (Robots.ServerIndexingPermissions.new .notRequested, [])) ∧
  (outcome = Except.error ClientError.otherError →
    Robots.get_cached_permissions site none outcome =
      (Robots.ServerIndexingPermissions.new .requestedFailed,
       [(site, Robots.ServerIndexingPermissions.new .requestedFailed)])) ∧
  (∀ w ∈ (Robots.get_cached_permissions site none outcome).2,
    w.2.robots_txt_status ≠ Robots.RobotsTxtStatus.notRequested) ∧
  (∀ compile ua (url2 : Url) site2, url2.host = some site2 →
    outcome = Except.error ClientError.suppressed →
    Robots.can_access_url compile ua []
      (fun _ => (Robots.get_cached_permissions site none outcome).1) url2 =
      some (false, [])) ∧
  Robots.robotsTxtPermissionsConfig.remoteTtlSeconds = some 86400 ∧
  Robots.robotsTxtPermissionsConfig.localTtlSeconds = some 7200 := by
  refine ⟨?_, ?_, ?_, ?_, ?_, ?_, ?_, ?_, rfl, rfl⟩
  · intro text h
    subst h
    rfl
  · intro h
    subst h
    rfl
  · intro status h hs
    subst h
    rcases hs with hs | hs <;> subst hs <;> rfl
  · intro status h h44 h43
    subst h
    simp [Robots.get_cached_permissions, Robots.download_robots_txt, h44, h43]
  · intro h
    subst h
    rfl
  · intro h
    subst h
    rfl
  · intro w hw
    rcases outcome with e | b
    · rcases e with code | _ | _
      · by_cases h44 : code = 404
        · simp [Robots.get_cached_permissions, Robots.download_robots_txt, h44,
            Robots.ServerIndexingPermissions.new] at hw
          simp [hw, Robots.ServerIndexingPermissions.new]
        · by_cases h43 : code = 403
          · simp [Robots.get_cached_permissions, Robots.download_robots_txt,
              h44, h43, Robots.ServerIndexingPermissions.new] at hw
            simp [hw, Robots.ServerIndexingPermissions.new]
          · simp [Robots.get_cached_permissions, Robots.download_robots_txt,
              h44, h43, Robots.ServerIndexingPermissions.new] at hw
            simp [hw, Robots.ServerIndexingPermissions.new]
      · simp [Robots.get_cached_permissions, Robots.download_robots_txt] at hw
      · simp [Robots.get_cached_permissions, Robots.download_robots_txt,
          Robots.ServerIndexingPermissions.new] at hw
        simp [hw, Robots.ServerIndexingPermissions.new]
    · rcases b with text | _
      · simp [Robots.get_cached_permissions, Robots.download_robots_txt,
          Robots.ServerIndexingPermissions.from_string] at hw
        simp [hw]
      · simp [Robots.get_cached_permissions, Robots.download_robots_txt,
          Robots.ServerIndexingPermissions.new] at hw
        simp [hw, Robots.ServerIndexingPermissions.new]
  · intro compile ua url2 site2 hhost hsup
    subst hsup
    simp [Robots.can_access_url, hhost, Robots.get_cached_permissions,
      Robots.download_robots_txt, Robots.ServerIndexingPermissions.new]

/-- C5 witness: a suppressed fetch yields the NotRequested state and no
cache write. -/
theorem claim5_witness :
  Robots.get_cached_permissions "example.com" none
    (Except.error ClientError.suppressed) =
    (Robots.ServerIndexingPermissions.new Robots.RobotsTxtStatus.notRequested, []) :=
  (claim5_robots_fetch_classification "example.com"
    (Except.error ClientError.suppressed)).2.2.2.2.1 rfl

/-- C1: on a matcher cache miss (and under the construction invariant
that an Acquired state carries its raw text), the access decision is
allowed exactly when the permission state of the site is
RequestedNotFound, or it is Acquired and the matcher compiled from the
raw robots.txt text permits the URL for the configured user agent; a
URL without host is denied, and a failing matcher compilation is denied
with nothing cached. -/
theorem claim1_can_access_url_decision
    (compile : String → String → Option Robots.Robot) (ua : String)
    (cache : List (String × Robots.Robot))
    (permissions_for : String → Robots.ServerIndexingPermissions) (url : Url)
    (hmiss : ∀ site, url.host = some site → cache.lookup site = none)
    (hinv : ∀ site, url.host = some site →
      (permissions_for site).robots_txt_status = Robots.RobotsTxtStatus.acquired →
      (permissions_for site).robots_txt.isSome) :
  ∃ b cache2,
    Robots.can_access_url compile ua cache permissions_for url = some (b, cache2) ∧
    (b = true ↔ ∃ site, url.host = some site ∧
      ((permissions_for site).robots_txt_status =
          Robots.RobotsTxtStatus.requestedNotFound ∨
       ((permissions_for site).robots_txt_status =
           Robots.RobotsTxtStatus.acquired ∧
        ∃ text robot, (permissions_for site).robots_txt = some text ∧
          compile ua text = some robot ∧
          robot.allowed url.toUrlString = true))) ∧
    (url.host = none → b = false) ∧
    (∀ site text, url.host = some site →
      (permissions_for site).robots_txt_status = Robots.RobotsTxtStatus.acquired →
      (permissions_for site).robots_txt = some text →
      compile ua text = none → b = false ∧ cache2 = cache) := by
  rcases hu : url.host with _ | site
  · refine ⟨false, cache, ?_, ?_, fun _ => rfl, ?_⟩
    · simp [Robots.can_access_url, hu]
    · simp
    · intro site text h e2 e3 e4
      exact ⟨rfl, rfl⟩
  · have hl := hmiss site hu
    rcases hst : (permissions_for site).robots_txt_status with _ | _ | _ | _
    · have hsome := hinv site hu hst
      rcases htext : (permissions_for site).robots_txt with _ | text
      · rw [htext] at hsome
        simp at hsome
      · rcases hc : compile ua text with _ | robot
        · refine ⟨false, cache, ?_, ?_, fun _ => rfl, ?_⟩
          · simp [Robots.can_access_url, Robots.check_acquired_permissions,
              hu, hl, hst, htext, hc]
          · simp [hst, htext, hc]
          · intro site2 text2 e1 e2 e3 e4
            exact ⟨rfl, rfl⟩
        · refine ⟨robot.allowed url.toUrlString, (site, robot) :: cache, ?_, ?_, ?_, ?_⟩
          · simp [Robots.can_access_url, Robots.check_acquired_permissions,
              hu, hl, hst, htext, hc]
          · simp [hst, htext, hc]
          · intro h
            exact absurd h (by simp)
          · intro site2 text2 e1 e2 e3 e4
            injection e1 with e1
            subst e1
            rw [htext] at e3
            injection e3 with e3
            subst e3
            rw [hc] at e4
            exact absurd e4 (by simp)
    · refine ⟨true, cache, ?_, ?_, ?_, ?_⟩
      · simp [Robots.can_access_url, hu, hl, hst]
      · simp [hst]
      · intro h
        exact absurd h (by simp)
      · intro site2 text2 e1 e2 e3 e4
        injection e1 with e1
        subst e1
        rw [hst] at e2
        exact absurd e2 (by simp)
    · refine ⟨false, cache, ?_, ?_, fun _ => rfl, ?_⟩
      · simp [Robots.can_access_url, hu, hl, hst]
      · simp [hst]
      · intro site2 text2 e1 e2 e3 e4
        exact ⟨rfl, rfl⟩
    · refine ⟨false, cache, ?_, ?_, fun _ => rfl, ?_⟩
      · simp [Robots.can_access_url, hu, hl, hst]
      · simp [hst]
      · intro site2 text2 e1 e2 e3 e4
        exact ⟨rfl, rfl⟩

/-- C1 witness: with an accepting compile function and an acquired
state, the gate allows a plain URL and caches the compiled matcher. -/
theorem claim1_witness :
  ∃ b cache2,
    Robots.can_access_url allowAllCompile "fedineko-crabo" []
      acquiredPermissionsFor plainUrl = some (b, cache2) ∧
    (b = true ↔ ∃ site, plainUrl.host = some site ∧
      ((acquiredPermissionsFor site).robots_txt_status =
          Robots.RobotsTxtStatus.requestedNotFound ∨
       ((acquiredPermissionsFor site).robots_txt_status =
           Robots.RobotsTxtStatus.acquired ∧
        ∃ text robot, (acquiredPermissionsFor site).robots_txt = some text ∧
          allowAllCompile "fedineko-crabo" text = some robot ∧
          robot.allowed plainUrl.toUrlString = true))) ∧
    (plainUrl.host = none → b = false) ∧
    (∀ site text, plainUrl.host = some site →
      (acquiredPermissionsFor site).robots_txt_status =
        Robots.RobotsTxtStatus.acquired →
      (acquiredPermissionsFor site).robots_txt = some text →
      allowAllCompile "fedineko-crabo" text = none →
      b = false ∧ cache2 = []) :=
  claim1_can_access_url_decision allowAllCompile "fedineko-crabo" []
    acquiredPermissionsFor plainUrl (fun _ _ => rfl) (fun _ _ _ => rfl)

/-- C7: a snapshot is returned by the batch operation exactly when it is
a cache hit positive (a non expired record that deserializes) or a
freshly resolved positive (a resolver result whose cleaned snapshot is
present); negative results from either source are omitted. -/
theorem claim7_returned_union (resolve : Url → CacheHints → SnapshotAndHints)
    (cleanContent : String → String) (encode : Snapshot → String)
    (decode : String → Option Snapshot) (store : List SnapshotMaker.CacheItem)
    (now : Nat) (urls : List Url) (bypass_cache : Bool) (s : Snapshot) :
  s ∈ (SnapshotMaker.snap_many resolve cleanContent encode decode store now urls
      bypass_cache).snapshots ↔
    (∃ item, item ∈ SnapshotMaker.snapHaveInCache store now urls bypass_cache ∧
      SnapshotMaker.cache_item_to_snapshot decode item = some s) ∨
    (∃ e, e ∈ (SnapshotMaker.snap_many resolve cleanContent encode decode store
        now urls bypass_cache).invoked ∧
      SnapshotMaker.clean_snapshot cleanContent (resolve e.1 e.2).snapshot
        = some s) := by
  simp [SnapshotMaker.snap_many, List.mem_filterMap, List.mem_map]

/-- C2: a hint id freshly resolved to absent produces an explicit
negative cache record (no content, remote expiry one week from now, no
local tier override) in the written back store, and any later batch call
against that store with bypass off, before the expiry, invokes no
resolver for that id. -/
theorem claim2_negative_cache_suppresses_refetch
    (resolve resolve2 : Url → CacheHints → SnapshotAndHints)
    (cleanContent cleanContent2 : String → String)
    (encode encode2 : Snapshot → String)
    (decode decode2 : String → Option Snapshot)
    (store : List SnapshotMaker.CacheItem) (now now2 : Nat)
    (urls urls2 : List Url) (u : Url)
    (h_in : (u, SnapshotMaker.cache_hints u) ∈
      (SnapshotMaker.snap_many resolve cleanContent encode decode store now urls
        false).invoked)
    (h_resolve : resolve u (SnapshotMaker.cache_hints u) =
      ⟨none, SnapshotMaker.cache_hints u⟩)
    (h_ttl : now2 < now + SnapshotMaker.oneWeekSeconds) :
  (∃ item, item ∈ (SnapshotMaker.snap_many resolve cleanContent encode decode
      store now urls false).store ∧
    item.id = (SnapshotMaker.cache_hints u).id ∧ item.content = none ∧
    item.expires_at = now + SnapshotMaker.oneWeekSeconds ∧
    item.local_cache_expires_at = none) ∧
  (∀ e ∈ (SnapshotMaker.snap_many resolve2 cleanContent2 encode2 decode2
      (SnapshotMaker.snap_many resolve cleanContent encode decode store now urls
        false).store now2 urls2 false).invoked,
    e.2.id ≠ (SnapshotMaker.cache_hints u).id) := by
  have h_in2 : (u, SnapshotMaker.cache_hints u) ∈
      SnapshotMaker.snapToResolve store now urls false := h_in
  have h1 : (⟨none, SnapshotMaker.cache_hints u⟩ : SnapshotAndHints) ∈
      (SnapshotMaker.snapToResolve store now urls false).map (fun e =>
        let sh := resolve e.1 e.2
        { sh with snapshot := SnapshotMaker.clean_snapshot cleanContent sh.snapshot }) := by
    refine List.mem_map.mpr ⟨(u, SnapshotMaker.cache_hints u), h_in2, ?_⟩
    simp [h_resolve, SnapshotMaker.clean_snapshot]
  have hitem : (⟨(SnapshotMaker.cache_hints u).id, none,
      now + SnapshotMaker.oneWeekSeconds, none⟩ : SnapshotMaker.CacheItem) ∈
      (SnapshotMaker.snap_many resolve cleanContent encode decode store now urls
        false).store := by
    show _ ∈ SnapshotMaker.cachePut store (SnapshotMaker.update_cache_many now encode
      ((SnapshotMaker.snapToResolve store now urls false).map (fun e =>
        let sh := resolve e.1 e.2
        { sh with snapshot := SnapshotMaker.clean_snapshot cleanContent sh.snapshot })))
    refine List.mem_append_left _ ?_
    exact List.mem_map.mpr ⟨⟨none, SnapshotMaker.cache_hints u⟩, h1, rfl⟩
  refine ⟨⟨_, hitem, rfl, rfl, rfl, rfl⟩, ?_⟩
  intro e he heq
  have he2 : e ∈ SnapshotMaker.snapToResolve
      (SnapshotMaker.snap_many resolve cleanContent encode decode store now urls
        false).store now2 urls2 false := he
  rcases List.mem_filter.mp he2 with ⟨hmem, hpred⟩
  have hidmem : (SnapshotMaker.cache_hints u).id ∈ SnapshotMaker.snapIds urls2 := by
    rw [← heq]
    exact List.mem_map.mpr ⟨e, hmem, rfl⟩
  have hhave : (⟨(SnapshotMaker.cache_hints u).id, none,
      now + SnapshotMaker.oneWeekSeconds, none⟩ : SnapshotMaker.CacheItem) ∈
      SnapshotMaker.snapHaveInCache
        (SnapshotMaker.snap_many resolve cleanContent encode decode store now urls
          false).store now2 urls2 false := by
    show _ ∈ SnapshotMaker.cacheGet
      (SnapshotMaker.snap_many resolve cleanContent encode decode store now urls
        false).store (SnapshotMaker.snapIds urls2) now2
    refine List.mem_filter.mpr ⟨hitem, ?_⟩
    have hcont : (SnapshotMaker.snapIds urls2).contains
        (SnapshotMaker.cache_hints u).id = true := List.elem_iff.mpr hidmem
    simp [hcont, h_ttl]
    exact hidmem
  have hidin : (SnapshotMaker.cache_hints u).id ∈
      (SnapshotMaker.snapHaveInCache
        (SnapshotMaker.snap_many resolve cleanContent encode decode store now urls
          false).store now2 urls2 false).map (fun item => item.id) :=
    List.mem_map.mpr ⟨_, hhave, rfl⟩
  rw [heq] at hpred
  have hcont2 : ((SnapshotMaker.snapHaveInCache
      (SnapshotMaker.snap_many resolve cleanContent encode decode store now urls
        false).store now2 urls2 false).map (fun item => item.id)).contains
      (SnapshotMaker.cache_hints u).id = true := List.elem_iff.mpr hidin
  rw [hcont2] at hpred
  simp at hpred

/-- C2 witness: a single URL batch over an empty store writes the
negative record and a second call one second later invokes no resolver
for that id. -/
theorem claim2_witness :
  (∃ item, item ∈ (SnapshotMaker.snap_many absentResolve idClean encode0 decode0
      [] 0 [plainUrl] false).store ∧
    item.id = (SnapshotMaker.cache_hints plainUrl).id ∧ item.content = none ∧
    item.expires_at = 0 + SnapshotMaker.oneWeekSeconds ∧
    item.local_cache_expires_at = none) ∧
  (∀ e ∈ (SnapshotMaker.snap_many absentResolve idClean encode0 decode0
      (SnapshotMaker.snap_many absentResolve idClean encode0 decode0 [] 0
        [plainUrl] false).store 1 [plainUrl] false).invoked,
    e.2.id ≠ (SnapshotMaker.cache_hints plainUrl).id) :=
  claim2_negative_cache_suppresses_refetch absentResolve absentResolve idClean
    idClean encode0 encode0 decode0 decode0 [] 0 1 [plainUrl] [plainUrl] plainUrl
    (by decide) rfl (by decide)

end Crabo
